import Mathlib

/-!
Shallow embedding of the incident-intelligence diagnosis service.

The embedding covers:
* `src/utils/time_utils.py` (time-range token table and parsing),
* `src/mcp_tools/base.py` (the tool execution wrapper `BaseTool.run`),
* `src/mcp_tools/logs_tool.py` (the mock log generator, the data path used
  when `settings.use_mock_data` holds or no GCP client is available),
* `src/mcp_tools/metrics_tool.py` (the mock metrics generator, same data path),
* `src/services/agent_service.py` (the orchestration loop `diagnose`).

Modelling conventions:
* Python machine effects are explicit inputs: clock readings are rational
  numbers measured in minutes (ISO-8601 timestamp strings of the source
  compare lexicographically exactly as their time values compare, so a
  numeric timestamp is a faithful model of the sort key), random draws are
  oracle functions packaged in `*Random` structures, and the language-model
  oracle is a function from the conversation so far to an assistant message.
* Python exceptions are the error side of `Except String`, carrying `str(e)`.
* Python `int` is `ℤ`, Python `float` is `ℚ`, Python `str` is `String`.
-/

namespace IncidentIntelligence

/-- ASCII lower-casing of a character, the behaviour of Python `str.lower`
on the ASCII strings this code base manipulates. -/
def lowerChar (c : Char) : Char :=
  if 65 ≤ c.toNat ∧ c.toNat ≤ 90 then Char.ofNat (c.toNat + 32) else c

/-- Python `s.lower()` for ASCII strings. -/
def pyLower (s : String) : String := ⟨s.data.map lowerChar⟩

/-- Python `int(q)`: truncation toward zero. -/
def pyInt (q : ℚ) : ℤ := if 0 ≤ q then ⌊q⌋ else ⌈q⌉

/-- Python slice `l[:n]` for an `int` bound `n`: a nonnegative bound keeps the
first `n` elements, a negative bound drops the last `-n` elements. -/
def pyTake (n : ℤ) (l : List α) : List α :=
  if 0 ≤ n then l.take n.toNat else l.take ((l.length : ℤ) + n).toNat

/-- Python `round(q, 2)`. (Python rounds ties to even; ties differ from
`round` only on exact half-cent values, which never matter below.) -/
def round2 (q : ℚ) : ℚ := (round (q * 100) : ℚ) / 100

/-- An ASCII single-quote character, as a string. -/
def quote : String := String.singleton (Char.ofNat 39)

/-! ## `src/utils/time_utils.py` -/

/-- `TIME_RANGE_MINUTES`: supported time ranges and their minute equivalents. -/
def TIME_RANGE_MINUTES : List (String × ℕ) :=
  [("5m", 5), ("15m", 15), ("30m", 30), ("1h", 60), ("3h", 180), ("24h", 1440)]

/-- The Python `repr` of `list(TIME_RANGE_MINUTES.keys())`. -/
def valid_options_repr : String :=
  "[" ++ quote ++ "5m" ++ quote ++ ", " ++ quote ++ "15m" ++ quote ++ ", "
      ++ quote ++ "30m" ++ quote ++ ", " ++ quote ++ "1h" ++ quote ++ ", "
      ++ quote ++ "3h" ++ quote ++ ", " ++ quote ++ "24h" ++ quote ++ "]"

/-- The message of the `ValueError` raised by `parse_time_range`. -/
def invalid_time_range_msg (time_range : String) : String :=
  "Invalid time_range: " ++ quote ++ time_range ++ quote ++ ". Valid options: "
    ++ valid_options_repr

/-- `parse_time_range`: convert a time-range token to minutes, raising
`ValueError` (the error side) on any token outside the table. -/
def parse_time_range (time_range : String) : Except String ℕ :=
  match List.lookup time_range TIME_RANGE_MINUTES with
  | some m => .ok m
  | none => .error (invalid_time_range_msg time_range)

/-! ## A minimal model of Python values (dict payloads) -/

/-- A Python value as stored in the tool result dictionaries. -/
inductive PyVal where
  | pint (n : ℤ)
  | pfloat (q : ℚ)
  | pstr (s : String)
  | plist (items : List PyVal)
  | pdict (items : List (String × PyVal))

/-- A Python dictionary with string keys. -/
abbrev PyDict := List (String × PyVal)

/-- Python `d.get(k)` / `d[k]` on a dict. -/
def pyGet (d : PyDict) (k : String) : Option PyVal := List.lookup k d

/-- Read a dict value as a Python `int`, with a default (the shape
`d.get(k, 0)` used by the agent on integer-valued fields). -/
def pyGetInt (d : PyDict) (k : String) (dflt : ℤ) : ℤ :=
  match pyGet d k with
  | some (.pint n) => n
  | _ => dflt

/-- Python `len` of a dict-or-list value, `0` on anything else (the agent
applies `len` only to the `metrics` dict). -/
def pyLen : PyVal → ℕ
  | .plist items => items.length
  | .pdict items => items.length
  | _ => 0

/-! ## `src/mcp_tools/base.py` — the tool execution wrapper -/

/-- The dictionary returned by `BaseTool.run`: the tool execution result
envelope.  On success the `data` key is present, on failure the `error`
key is; the absent one is modelled as `none`. -/
structure ToolEnvelope where
  success : Bool
  data : Option PyDict
  error : Option String
  execution_time_ms : ℤ
  timestamp : String

namespace BaseTool

/-- `execution_time = int((time.time() - start_time) * 1000)` with the two
clock readings `t0` (before) and `t1` (after), in seconds. -/
def elapsed_ms (t0 t1 : ℚ) : ℤ := pyInt ((t1 - t0) * 1000)

/-- `BaseTool.run`: execute the tool's `execute` body — whose outcome is
`outcome` (`.ok` a result dict, `.error` the `str` of the raised
exception) — and always return an envelope, never raise.  `t0` and `t1`
are the wall-clock readings around the body, `ts` the timestamp taken
when the envelope is built. -/
def run (outcome : Except String PyDict) (t0 t1 : ℚ) (ts : String) : ToolEnvelope :=
  match outcome with
  | .ok result =>
      { success := true
        data := some result
        error := none
        execution_time_ms := elapsed_ms t0 t1
        timestamp := ts }
  | .error e =>
      { success := false
        data := none
        error := some e
        execution_time_ms := elapsed_ms t0 t1
        timestamp := ts }

end BaseTool

/-! ## `src/mcp_tools/logs_tool.py` — mock log generation -/

/-- One entry of the hardcoded `log_templates` list. -/
structure LogTemplate where
  severity : String
  message : String
  service : String
deriving DecidableEq

/-- The five hardcoded mock log templates. -/
def log_templates : List LogTemplate :=
  [ { severity := "ERROR"
      message := "Database connection pool exhausted: max_connections=100, active=100"
      service := "checkout-service" }
  , { severity := "WARNING"
      message := "High latency detected: response_time=5.2s (threshold: 1s)"
      service := "checkout-service" }
  , { severity := "ERROR"
      message := "Failed to acquire database connection: timeout after 30s"
      service := "payment-service" }
  , { severity := "INFO"
      message := "Successfully processed payment: transaction_id=xyz123"
      service := "payment-service" }
  , { severity := "CRITICAL"
      message := "Out of memory: heap usage 98%, triggering garbage collection"
      service := "checkout-service" } ]

/-- `log_templates[0]`, the fallback template used when no template passes
the service/severity filter. -/
def template0 : LogTemplate := log_templates.headD ⟨"", "", ""⟩

/-- The filter applied to `log_templates` (`filtered_templates` in the
source): keep templates matching the requested service and severity,
severity compared case-insensitively. -/
def filtered_templates (service_name severity : String) : List LogTemplate :=
  log_templates.filter fun t =>
    (service_name == "all" || t.service == service_name)
      && (severity == "all" || pyLower t.severity == pyLower severity)

/-- Python `random.choice(l)` given a random index draw `k`, together with
the source's fallback to `log_templates[0]` on an empty filtered list. -/
def choice_or_default (l : List LogTemplate) (k : ℕ) : LogTemplate :=
  if l.isEmpty then template0 else l.getD (k % l.length) template0

/-- One generated mock log entry.  `timestamp` is minutes on the model
clock (larger = later). -/
structure LogEntry where
  timestamp : ℚ
  severity : String
  service : String
  message : String
  trace_id : String

/-- The dictionary returned by `LogsQueryTool._generate_mock_logs`. -/
structure LogsResult where
  total_logs : ℕ
  time_range : String
  service : String
  logs : List LogEntry

/-- The random draws consumed by one `_generate_mock_logs` call:
`num` is `random.randint(10, 50)`, `choose i` the index draw behind
`random.choice` for entry `i`, `offset i` the unit-interval draw scaled by
`minutes` to give `random.uniform(0, minutes)` for entry `i`, and
`traceN i` the draw of `random.randint(1000, 9999)` for entry `i`. -/
structure LogsRandom where
  num : ℤ
  choose : ℕ → ℕ
  offset : ℕ → ℚ
  traceN : ℕ → ℕ

/-- Descending-timestamp comparison, the Boolean key of
`mock_logs.sort(key=..., reverse=True)`. -/
def byTimestampDesc (a b : LogEntry) : Bool := decide (b.timestamp ≤ a.timestamp)

/-- The `mock_logs` list built by `_generate_mock_logs` before sorting:
`min(randint(10, 50), limit)` entries, each drawn from the filtered
templates (falling back to `log_templates[0]` when the filter leaves
nothing) and stamped a uniform number of minutes in the past. -/
def mock_log_entries (rnd : LogsRandom) (now : ℚ) (service_name severity : String)
    (limit : ℤ) (minutes : ℕ) : List LogEntry :=
  let filtered := filtered_templates service_name severity
  let num_logs : ℤ := min rnd.num limit
  (List.range num_logs.toNat).map fun i =>
    let t := choice_or_default filtered (rnd.choose i)
    { timestamp := now - rnd.offset i * (minutes : ℚ)
      severity := t.severity
      service := t.service
      message := t.message
      trace_id := "trace_" ++ toString (rnd.traceN i) }

/-- `LogsQueryTool._generate_mock_logs` (the `execute` body on the mock data
path): validate the time range, build the mock entries, sort by timestamp
descending, truncate to `limit`. -/
def generate_mock_logs (rnd : LogsRandom) (now : ℚ)
    (service_name time_range severity : String) (limit : ℤ) :
    Except String LogsResult := do
  let minutes ← parse_time_range time_range
  let sorted :=
    (mock_log_entries rnd now service_name severity limit minutes).mergeSort
      byTimestampDesc
  .ok { total_logs := sorted.length
        time_range := time_range
        service := service_name
        logs := pyTake limit sorted }

/-- The `logs` field of a logs-tool outcome, `[]` on a raised error. -/
def logs_of : Except String LogsResult → List LogEntry
  | .ok r => r.logs
  | .error _ => []

/-! ## `src/mcp_tools/metrics_tool.py` — mock metric generation -/

/-- One point of a generated time series; `timestamp` is minutes on the
model clock. -/
structure MetricPoint where
  timestamp : ℚ
  value : ℚ

/-- The random draws consumed by one `_generate_timeseries` call:
`u i` is the unit-interval draw scaled by `variance` to give
`random.uniform(-variance, variance)` for point `i`, and `s i` records
whether `random.random() < spike_prob` held for point `i`. -/
structure SeriesRandom where
  u : ℕ → ℚ
  s : ℕ → Bool

/-- `MetricsQueryTool._generate_timeseries`: one point per minute, a base
value plus fluctuation, occasionally multiplied by the spike magnitude,
then clamped to be non-negative and rounded to two decimals.
`spike_prob` only feeds the comparison recorded in `rnd.s`. -/
def generate_timeseries (rnd : SeriesRandom) (current_time : ℚ) (num_points : ℕ)
    (base variance : ℚ) (spike_prob : ℚ := 1/10) (spike_magnitude : ℚ := 2) :
    List MetricPoint :=
  let _ := spike_prob
  (List.range num_points).map fun i =>
    let timestamp := current_time - ((num_points - i : ℕ) : ℚ)
    let value := base + rnd.u i * variance
    let value := if rnd.s i then value * spike_magnitude else value
    let value := max 0 value
    { timestamp := timestamp, value := round2 value }

/-- The random draws consumed by one `_generate_mock_metrics` call, one
`SeriesRandom` per potential series in generation order. -/
structure MetricsRandom where
  cpu : SeriesRandom
  memory : SeriesRandom
  latency : SeriesRandom
  error_rate : SeriesRandom

/-- The `metrics` dictionary built by `_generate_mock_metrics`: one entry
per metric type selected by `metric_type`, inserted in the source's order
cpu, memory, latency, error_rate. -/
def mock_metrics_map (rnd : MetricsRandom) (now : ℚ) (num_points : ℕ)
    (metric_type : String) : List (String × List MetricPoint) :=
  (if metric_type = "cpu" ∨ metric_type = "all" then
    [("cpu_usage_percent",
      generate_timeseries rnd.cpu now num_points 60 20 (1/10))]
   else []) ++
  (if metric_type = "memory" ∨ metric_type = "all" then
    [("memory_usage_percent",
      generate_timeseries rnd.memory now num_points 75 10 (1/20))]
   else []) ++
  (if metric_type = "latency" ∨ metric_type = "all" then
    [("response_time_ms",
      generate_timeseries rnd.latency now num_points 250 100 (3/20) 3)]
   else []) ++
  (if metric_type = "error_rate" ∨ metric_type = "all" then
    [("error_rate_percent",
      generate_timeseries rnd.error_rate now num_points (1/2) (3/10) (1/5) 10)]
   else [])

/-- The dictionary returned by `MetricsQueryTool._generate_mock_metrics`. -/
structure MetricsResult where
  service : String
  time_range : String
  metric_type : String
  data_points : ℕ
  metrics : List (String × List MetricPoint)

/-- `MetricsQueryTool._generate_mock_metrics` (the `execute` body on the
mock data path): validate the time range, then emit one series per
selected metric type with one point per minute of the window. -/
def generate_mock_metrics (rnd : MetricsRandom) (now : ℚ)
    (service_name metric_type time_range : String) :
    Except String MetricsResult := do
  let minutes ← parse_time_range time_range
  let num_points := minutes
  .ok { service := service_name
        time_range := time_range
        metric_type := metric_type
        data_points := num_points
        metrics := mock_metrics_map rnd now num_points metric_type }

/-! ## `src/services/agent_service.py` — the orchestration loop

The OpenAI client is the opaque oracle of the spec: it is modelled as a
function from the conversation so far to the assistant message it returns.
`json.loads` on tool-call arguments is modelled by carrying the arguments
already parsed, as a `PyDict`.  The registered tools' `run` (which never
raises, see `BaseTool.run`) is modelled as a function from tool name and
arguments to the envelope it returns. -/

/-- One tool-call request inside an assistant message. -/
structure ToolCall where
  id : String
  name : String
  arguments : PyDict

/-- The assistant message returned by one model consultation. -/
structure AssistantMsg where
  content : String
  tool_calls : List ToolCall

/-- One message of the conversation (`messages` in `diagnose`). -/
inductive Message where
  | system (content : String)
  | user (content : String)
  | assistant (content : String) (tool_calls : List ToolCall)
  | tool (tool_call_id : String) (name : String) (content : PyDict)

/-- The environment of one `diagnose` call: the language-model oracle and
the behaviour of the registered tools' `run`. -/
structure AgentEnv where
  oracle : List Message → AssistantMsg
  runTool : String → PyDict → ToolEnvelope

/-- The tool registry `self.tools`: `query_logs` and `query_metrics`. -/
def registered (tool_name : String) : Bool :=
  tool_name == "query_logs" || tool_name == "query_metrics"

/-- `DiagnosisAgent._execute_tool`: resolve the tool by name — raising
`ValueError("Unknown tool: ...")` when the registry has no entry — and
run it. -/
def execute_tool (env : AgentEnv) (tool_name : String) (arguments : PyDict) :
    Except String ToolEnvelope :=
  if registered tool_name then .ok (env.runTool tool_name arguments)
  else .error ("Unknown tool: " ++ tool_name)

/-- `DiagnosisAgent._summarize_tool_result`. -/
def summarize_tool_result (tool_name : String) (result : ToolEnvelope) : String :=
  if result.success = false then
    "Error: " ++ result.error.getD "Unknown error"
  else
    let data := result.data.getD []
    if tool_name = "query_logs" then
      "Found " ++ toString (pyGetInt data "total_logs" 0) ++ " logs"
    else if tool_name = "query_metrics" then
      "Retrieved " ++ toString (pyLen ((pyGet data "metrics").getD (.pdict [])))
        ++ " metric types"
    else "Executed successfully"

/-- `DiagnosisAgent._count_data_points`. -/
def count_data_points (result : ToolEnvelope) : ℤ :=
  if result.success = false then 0
  else
    let data := result.data.getD []
    match pyGet data "total_logs" with
    | some _ => pyGetInt data "total_logs" 0
    | none =>
      match pyGet data "data_points" with
      | some _ => pyGetInt data "data_points" 0
      | none => 0

/-- One entry of `tools_executed`: the tool execution record appended to
the trace after each tool call. -/
structure ToolExecutionRecord where
  tool_name : String
  execution_time_ms : ℤ
  result_summary : String
  data_points : ℤ

/-- The record built from one tool call's envelope
(`tool_executions.append({...})` in `diagnose`). -/
def mk_execution_record (tool_name : String) (result : ToolEnvelope) :
    ToolExecutionRecord :=
  { tool_name := tool_name
    execution_time_ms := result.execution_time_ms
    result_summary := summarize_tool_result tool_name result
    data_points := count_data_points result }

/-- The inner `for tool_call in assistant_message.tool_calls` loop: execute
each requested tool in order, appending one trace record and one
tool-result message (content `tool_result.get("data", {})`) per call; an
`Unknown tool` error aborts the whole loop. -/
def process_tool_calls (env : AgentEnv) :
    List ToolCall → List Message → List ToolExecutionRecord →
    Except String (List Message × List ToolExecutionRecord)
  | [], messages, tool_executions => .ok (messages, tool_executions)
  | tc :: rest, messages, tool_executions => do
    let tool_result ← execute_tool env tc.name tc.arguments
    process_tool_calls env rest
      (messages ++ [.tool tc.id tc.name (tool_result.data.getD [])])
      (tool_executions ++ [mk_execution_record tc.name tool_result])

/-- `max_iterations = 5  # Prevent infinite loops`. -/
def max_iterations : ℕ := 5

/-- The fixed exhaustion sentinel assigned when the iteration cap is hit. -/
def exhaustion_sentinel : String :=
  "Analysis incomplete: maximum tool call iterations reached."

/-- The `for iteration in range(max_iterations)` loop of `diagnose`,
with `fuel` iterations left and `consultations` model consultations
performed so far.  Returns the final response (`none` when the cap was
reached while the model still requested tools), the trace, and the total
number of model consultations performed. -/
def run_iterations (env : AgentEnv) :
    ℕ → List Message → List ToolExecutionRecord → ℕ →
    Except String (Option String × List ToolExecutionRecord × ℕ)
  | 0, _, tool_executions, consultations =>
      .ok (none, tool_executions, consultations)
  | fuel + 1, messages, tool_executions, consultations =>
    let assistant_message := env.oracle messages
    let consultations := consultations + 1
    if assistant_message.tool_calls.isEmpty then
      .ok (some assistant_message.content, tool_executions, consultations)
    else do
      let messages :=
        messages ++ [.assistant assistant_message.content assistant_message.tool_calls]
      let (messages, tool_executions) ←
        process_tool_calls env assistant_message.tool_calls messages tool_executions
      run_iterations env fuel messages tool_executions consultations

/-- The system prompt built at the top of `diagnose`. -/
def system_prompt (service_name : Option String) (time_range : String) : String :=
  "You are an expert SRE (Site Reliability Engineer) diagnosing production incidents.\n\nYour role:\n1. Analyze the user" ++ quote ++ "s question about an incident\n2. Use available tools (query_logs, query_metrics) to gather data\n3. Identify root causes, affected services, and timeline\n4. Provide actionable remediation suggestions\n\nContext:\n- Service: "
    ++ (service_name.getD "all services")
    ++ "\n- Time range: " ++ time_range
    ++ "\n\nBe thorough but concise. Focus on actionable insights."

/-- The initial conversation: the system prompt and the raw user query. -/
def init_messages (query : String) (service_name : Option String)
    (time_range : String) : List Message :=
  [.system (system_prompt service_name time_range), .user query]

/-- The externally visible diagnosis record. -/
structure DiagnosisResult where
  request_id : String
  status : String
  query : String
  analysis : String
  tools_executed : List ToolExecutionRecord
  processing_time_ms : ℤ
  timestamp : String

/-- `DiagnosisAgent.diagnose`.  The generated request id, the assembled
processing time, and the result timestamp are clock/uuid effects and enter
as parameters.  The second component of the returned pair instruments the
number of model consultations the loop performed — it is `consultations`
as returned by `run_iterations` and exists only to let theorems speak
about the consultation count. -/
def diagnose (env : AgentEnv) (request_id : String) (processing_time_ms : ℤ)
    (ts : String) (query : String) (service_name : Option String)
    (time_range : String) :
    Except String (DiagnosisResult × ℕ) := do
  let messages := init_messages query service_name time_range
  let (final_response, tool_executions, consultations) ←
    run_iterations env max_iterations messages [] 0
  let final_response :=
    match final_response with
    | some r => r
    | none => exhaustion_sentinel
  .ok ({ request_id := request_id
         status := "success"
         query := query
         analysis := final_response
         tools_executed := tool_executions
         processing_time_ms := processing_time_ms
         timestamp := ts }, consultations)

/-! ## Spec-side definitions used to state the claims -/

/-- The §6 closed vocabulary of time-range tokens. -/
def valid_time_ranges : List String := ["5m", "15m", "30m", "1h", "3h", "24h"]

/-- The metric keys the spec says `metric_type` implies: `all` gives the
four keys cpu/memory/latency/error_rate, a recognized single type gives
exactly its key, anything else gives no keys. -/
def spec_metric_keys (metric_type : String) : List String :=
  if metric_type = "all" then
    ["cpu_usage_percent", "memory_usage_percent", "response_time_ms",
     "error_rate_percent"]
  else if metric_type = "cpu" then ["cpu_usage_percent"]
  else if metric_type = "memory" then ["memory_usage_percent"]
  else if metric_type = "latency" then ["response_time_ms"]
  else if metric_type = "error_rate" then ["error_rate_percent"]
  else []

/-- The conversation after one `COLLECTING` iteration that requested tools:
the assistant message followed by one tool-result message per call. -/
def step_messages (env : AgentEnv) (messages : List Message) : List Message :=
  let am := env.oracle messages
  messages ++ [.assistant am.content am.tool_calls]
    ++ am.tool_calls.map fun tc =>
        .tool tc.id tc.name ((env.runTool tc.name tc.arguments).data.getD [])

/-- The trace records produced by one iteration: one record per tool call
of the model's response, in call order. -/
def iteration_records (env : AgentEnv) (messages : List Message) :
    List ToolExecutionRecord :=
  (env.oracle messages).tool_calls.map fun tc =>
    mk_execution_record tc.name (env.runTool tc.name tc.arguments)

/-- The full trace across `n` iterations that all request tools: each
iteration's records in iteration order, records within an iteration in
call order. -/
def expected_trace (env : AgentEnv) : ℕ → List Message → List ToolExecutionRecord
  | 0, _ => []
  | n + 1, messages =>
      iteration_records env messages
        ++ expected_trace env n (step_messages env messages)

/-! ## Helper lemmas -/

theorem pyTake_sublist (n : ℤ) (l : List α) : (pyTake n l).Sublist l := by
  unfold pyTake
  split <;> exact List.take_sublist _ _

theorem pyTake_zero (l : List α) : pyTake 0 l = [] := by
  simp [pyTake]

theorem length_pyTake_le (n : ℤ) (l : List α) (h : 0 ≤ n) :
    ((pyTake n l).length : ℤ) ≤ n := by
  unfold pyTake
  rw [if_pos h]
  calc ((l.take n.toNat).length : ℤ) ≤ (n.toNat : ℤ) := by
        exact_mod_cast Nat.le_of_eq (List.length_take _ _) |>.trans (Nat.min_le_left _ _)
    _ = n := Int.toNat_of_nonneg h

theorem mergeSort_desc_pairwise (l : List LogEntry) :
    (l.mergeSort byTimestampDesc).Pairwise fun a b => b.timestamp ≤ a.timestamp := by
  have h := @List.sorted_mergeSort LogEntry byTimestampDesc
    (fun a b c hab hbc => by
      simp only [byTimestampDesc, decide_eq_true_eq] at *
      exact le_trans hbc hab)
    (fun a b => by
      simp only [byTimestampDesc, Bool.or_eq_true, decide_eq_true_eq]
      exact le_total _ _)
    l
  exact h.imp fun hab => by
    simpa [byTimestampDesc, decide_eq_true_eq] using hab

theorem choice_or_default_mem {l : List LogTemplate} (h : l ≠ []) (k : ℕ) :
    choice_or_default l k ∈ l := by
  unfold choice_or_default
  rw [if_neg (by simpa [List.isEmpty_eq_false] using h)]
  have hlen : k % l.length < l.length :=
    Nat.mod_lt _ (List.length_pos.mpr h)
  rw [List.getD_eq_getElem?_getD, List.getElem?_eq_getElem hlen]
  exact List.getElem_mem _

theorem round2_nonneg {q : ℚ} (h : 0 ≤ q) : 0 ≤ round2 q := by
  unfold round2
  have h100 : (0 : ℚ) ≤ q * 100 := by positivity
  have hfl : (0 : ℤ) ≤ round (q * 100) := by
    rw [round_eq]
    exact Int.le_floor.mpr (by linarith)
  positivity

theorem parse_time_range_none {t : String} (h : t ∉ valid_time_ranges) :
    parse_time_range t = .error (invalid_time_range_msg t) := by
  simp only [valid_time_ranges, List.mem_cons, List.not_mem_nil, or_false] at h
  push_neg at h
  obtain ⟨h1, h2, h3, h4, h5, h6⟩ := h
  have e1 : (t == "5m") = false := beq_eq_false_iff_ne.mpr h1
  have e2 : (t == "15m") = false := beq_eq_false_iff_ne.mpr h2
  have e3 : (t == "30m") = false := beq_eq_false_iff_ne.mpr h3
  have e4 : (t == "1h") = false := beq_eq_false_iff_ne.mpr h4
  have e5 : (t == "3h") = false := beq_eq_false_iff_ne.mpr h5
  have e6 : (t == "24h") = false := beq_eq_false_iff_ne.mpr h6
  simp [parse_time_range, TIME_RANGE_MINUTES, List.lookup, e1, e2, e3, e4, e5, e6]

/-! ## Claim theorems -/

/-- Claim C3: each token of `{5m, 15m, 30m, 1h, 3h, 24h}` resolves to
exactly 5, 15, 30, 60, 180 and 1440 minutes respectively; any other
string makes time-range parsing fail with a `ValueError` whose message
names the invalid token (wrapped in quotes) and lists the valid set, and
that failure surfaces on both the Logs and the Metrics tool. -/
theorem time_range_table_exact (t : String) (rl : LogsRandom) (rm : MetricsRandom)
    (nl nm : ℚ) (snl snm sev mt : String) (limit : ℤ) :
    (parse_time_range "5m" = .ok 5 ∧ parse_time_range "15m" = .ok 15 ∧
     parse_time_range "30m" = .ok 30 ∧ parse_time_range "1h" = .ok 60 ∧
     parse_time_range "3h" = .ok 180 ∧ parse_time_range "24h" = .ok 1440) ∧
    (t ∉ valid_time_ranges →
      parse_time_range t = .error (invalid_time_range_msg t) ∧
      generate_mock_logs rl nl snl t sev limit
        = .error (invalid_time_range_msg t) ∧
      generate_mock_metrics rm nm snm mt t
        = .error (invalid_time_range_msg t)) := by
  refine ⟨⟨rfl, rfl, rfl, rfl, rfl, rfl⟩, fun h => ?_⟩
  have hp := parse_time_range_none h
  exact ⟨hp, by simp only [generate_mock_logs, hp]; rfl,
    by simp only [generate_mock_metrics, hp]; rfl⟩

/-- Witness for C3 at the unsupported token `"10m"`. -/
theorem time_range_table_exact_witness :
    (parse_time_range "5m" = .ok 5 ∧ parse_time_range "15m" = .ok 15 ∧
     parse_time_range "30m" = .ok 30 ∧ parse_time_range "1h" = .ok 60 ∧
     parse_time_range "3h" = .ok 180 ∧ parse_time_range "24h" = .ok 1440) ∧
    (parse_time_range "10m" = .error (invalid_time_range_msg "10m") ∧
      generate_mock_logs ⟨10, fun _ => 0, fun _ => 0, fun _ => 1000⟩ 0 "all" "10m" "all" 100
        = .error (invalid_time_range_msg "10m") ∧
      generate_mock_metrics
          ⟨⟨fun _ => 0, fun _ => false⟩, ⟨fun _ => 0, fun _ => false⟩,
           ⟨fun _ => 0, fun _ => false⟩, ⟨fun _ => 0, fun _ => false⟩⟩
          0 "all" "all" "10m"
        = .error (invalid_time_range_msg "10m")) := by
  have h := time_range_table_exact "10m"
    ⟨10, fun _ => 0, fun _ => 0, fun _ => 1000⟩
    ⟨⟨fun _ => 0, fun _ => false⟩, ⟨fun _ => 0, fun _ => false⟩,
     ⟨fun _ => 0, fun _ => false⟩, ⟨fun _ => 0, fun _ => false⟩⟩
    0 0 "all" "all" "all" "all" 100
  exact ⟨h.1, h.2 (by decide)⟩

/-- Destructuring a successful `generate_mock_logs` outcome. -/
theorem generate_mock_logs_ok {rnd : LogsRandom} {now : ℚ}
    {sn tr sev : String} {limit : ℤ} {r : LogsResult}
    (h : generate_mock_logs rnd now sn tr sev limit = .ok r) :
    ∃ m, parse_time_range tr = .ok m ∧
      r = { total_logs :=
              ((mock_log_entries rnd now sn sev limit m).mergeSort
                byTimestampDesc).length
            time_range := tr
            service := sn
            logs := pyTake limit
              ((mock_log_entries rnd now sn sev limit m).mergeSort
                byTimestampDesc) } := by
  cases hp : parse_time_range tr with
  | error e =>
      rw [generate_mock_logs] at h
      rw [hp] at h
      simp [Bind.bind, Except.bind] at h
  | ok m =>
      refine ⟨m, rfl, ?_⟩
      rw [generate_mock_logs] at h
      rw [hp] at h
      simp only [Bind.bind, Except.bind, Except.ok.injEq] at h
      exact h.symm

/-- A fixed choice of the random draws of the logs tool, used to evaluate
claims on concrete inputs. -/
def logsRandomW : LogsRandom :=
  { num := 10, choose := fun _ => 0, offset := fun _ => 0, traceN := fun _ => 1000 }

/-- Claim C7 (amended): for a nonnegative requested `limit` the returned
`logs` sequence has length at most `limit`, `limit = 0` yields the empty
sequence, and — for every `limit` — the entries are sorted by timestamp
descending.  (As literally stated the claim fails for negative limits,
where the code returns an empty list whose length `0` exceeds `limit`;
see the counterexample.) -/
theorem generate_mock_logs_limit_sorted (rnd : LogsRandom) (now : ℚ)
    (sn tr sev : String) (limit : ℤ) (r : LogsResult)
    (h : generate_mock_logs rnd now sn tr sev limit = .ok r) :
    (0 ≤ limit → (r.logs.length : ℤ) ≤ limit) ∧
    (limit = 0 → r.logs = []) ∧
    r.logs.Pairwise (fun a b => b.timestamp ≤ a.timestamp) := by
  obtain ⟨m, -, rfl⟩ := generate_mock_logs_ok h
  refine ⟨fun hl => length_pyTake_le _ _ hl, fun hl => by simp [hl, pyTake_zero], ?_⟩
  exact List.Pairwise.sublist (pyTake_sublist _ _) (mergeSort_desc_pairwise _)

/-- Counterexample to C7 as stated: at `limit = -1` the logs tool returns
an empty list, and an empty list does not have length at most `-1`. -/
theorem generate_mock_logs_negative_limit :
    (logs_of (generate_mock_logs logsRandomW 0 "all" "15m" "all" (-1))).length = 0
    ∧ ¬ (((logs_of (generate_mock_logs logsRandomW 0 "all" "15m" "all" (-1))).length : ℤ)
          ≤ -1) := by
  have h : logs_of (generate_mock_logs logsRandomW 0 "all" "15m" "all" (-1)) = [] := by
    have h15 : parse_time_range "15m" = .ok 15 := rfl
    have hm : mock_log_entries logsRandomW 0 "all" "all" (-1) 15 = [] := by
      simp [mock_log_entries, logsRandomW]
    simp [generate_mock_logs, h15, logs_of, hm, pyTake, Bind.bind, Except.bind]
  rw [h]
  simp

/-- The result of the logs tool under `logsRandomW` with `limit = 0`. -/
def logsResultW0 : LogsResult :=
  { total_logs := 0, time_range := "15m", service := "all", logs := [] }

/-- Evaluating the logs tool under `logsRandomW` with `limit = 0`. -/
theorem logsResultW0_eq :
    generate_mock_logs logsRandomW 0 "all" "15m" "all" 0 = .ok logsResultW0 := by
  have h15 : parse_time_range "15m" = .ok 15 := rfl
  have hm : mock_log_entries logsRandomW 0 "all" "all" 0 15 = [] := by
    simp [mock_log_entries, logsRandomW]
  simp [generate_mock_logs, h15, hm, logsResultW0, pyTake, Bind.bind, Except.bind]

/-- Witness for the amended C7 at `limit = 0`. -/
theorem generate_mock_logs_limit_sorted_witness :
    ((0 : ℤ) ≤ 0 → ((logsResultW0.logs.length : ℤ) ≤ 0)) ∧
    ((0 : ℤ) = 0 → logsResultW0.logs = []) ∧
    logsResultW0.logs.Pairwise (fun a b => b.timestamp ≤ a.timestamp) := by
  exact generate_mock_logs_limit_sorted logsRandomW 0 "all" "15m" "all" 0
    logsResultW0 logsResultW0_eq

/-- Claim C10: `total_logs` always equals the length of the returned
`logs`: the generated entry count is already capped at `limit`, so the
final truncation removes nothing (and for a negative `limit` both sides
are zero). -/
theorem generate_mock_logs_total_eq_len (rnd : LogsRandom) (now : ℚ)
    (sn tr sev : String) (limit : ℤ) (r : LogsResult)
    (h : generate_mock_logs rnd now sn tr sev limit = .ok r) :
    r.total_logs = r.logs.length := by
  obtain ⟨m, -, rfl⟩ := generate_mock_logs_ok h
  dsimp only
  have hlen : ((mock_log_entries rnd now sn sev limit m).mergeSort
      byTimestampDesc).length = (min rnd.num limit).toNat := by
    simp [List.length_mergeSort, mock_log_entries]
  by_cases hl : 0 ≤ limit
  · have hle : ((mock_log_entries rnd now sn sev limit m).mergeSort
        byTimestampDesc).length ≤ limit.toNat := by
      rw [hlen]
      exact Int.toNat_le_toNat (min_le_right _ _)
    rw [pyTake, if_pos hl, List.take_of_length_le hle]
  · push_neg at hl
    have h0 : ((mock_log_entries rnd now sn sev limit m).mergeSort
        byTimestampDesc).length = 0 := by
      rw [hlen]
      exact Int.toNat_of_nonpos (le_trans (min_le_right _ _) (le_of_lt hl))
    rw [List.length_eq_zero.mp h0]
    simp [pyTake]

/-- Witness for C10 under `logsRandomW` with `limit = 0`. -/
theorem generate_mock_logs_total_eq_len_witness :
    generate_mock_logs logsRandomW 0 "all" "15m" "all" 0 = .ok logsResultW0 ∧
    logsResultW0.total_logs = logsResultW0.logs.length :=
  ⟨logsResultW0_eq,
   generate_mock_logs_total_eq_len logsRandomW 0 "all" "15m" "all" 0
     logsResultW0 logsResultW0_eq⟩

/-- Claim C4 (amended): every returned entry matches a requested specific
severity case-insensitively and a requested specific service exactly,
PROVIDED at least one mock template matches the requested filters; when no
template matches, every generated entry is instead the fixed fallback
template `log_templates[0]` (severity `ERROR`, service
`checkout-service`), which need not match the request — see the
counterexample. -/
theorem generate_mock_logs_filter_match (rnd : LogsRandom) (now : ℚ)
    (sn tr sev : String) (limit : ℤ) (r : LogsResult)
    (h : generate_mock_logs rnd now sn tr sev limit = .ok r) :
    (filtered_templates sn sev ≠ [] →
      ∀ e ∈ r.logs,
        (sev ≠ "all" → pyLower e.severity = pyLower sev) ∧
        (sn ≠ "all" → e.service = sn)) ∧
    (filtered_templates sn sev = [] →
      ∀ e ∈ r.logs,
        e.severity = template0.severity ∧ e.service = template0.service) := by
  obtain ⟨m, -, rfl⟩ := generate_mock_logs_ok h
  have hmem : ∀ e ∈ pyTake limit
      ((mock_log_entries rnd now sn sev limit m).mergeSort byTimestampDesc),
      ∃ i, e = { timestamp := now - rnd.offset i * (m : ℚ)
                 severity := (choice_or_default (filtered_templates sn sev)
                   (rnd.choose i)).severity
                 service := (choice_or_default (filtered_templates sn sev)
                   (rnd.choose i)).service
                 message := (choice_or_default (filtered_templates sn sev)
                   (rnd.choose i)).message
                 trace_id := "trace_" ++ toString (rnd.traceN i) } := by
    intro e he
    have h1 := (pyTake_sublist _ _).subset he
    have h2 := List.mem_mergeSort.mp h1
    simp only [mock_log_entries, List.mem_map, List.mem_range] at h2
    obtain ⟨i, -, hei⟩ := h2
    exact ⟨i, hei.symm⟩
  constructor
  · intro hne e he
    obtain ⟨i, rfl⟩ := hmem e he
    have ht : choice_or_default (filtered_templates sn sev) (rnd.choose i)
        ∈ filtered_templates sn sev := choice_or_default_mem hne _
    have hp := (List.mem_filter.mp ht).2
    simp only [Bool.and_eq_true, Bool.or_eq_true, beq_iff_eq] at hp
    obtain ⟨hserv, hsev⟩ := hp
    constructor
    · intro hs
      rcases hsev with h' | h'
      · exact absurd h' hs
      · exact h'
    · intro hs
      rcases hserv with h' | h'
      · exact absurd h' hs
      · exact h'
  · intro hemp e he
    obtain ⟨i, rfl⟩ := hmem e he
    rw [choice_or_default, if_pos (by simp [hemp])]
    exact ⟨rfl, rfl⟩

/-- Counterexample to C4 as stated: requesting service
`checkout-service` with severity `info` matches no template, so the
fallback produces entries with severity `ERROR`, which does not match
`info` case-insensitively. -/
theorem generate_mock_logs_filter_counterexample :
    (logs_of (generate_mock_logs logsRandomW 0 "checkout-service" "15m" "info" 1)).map
        LogEntry.severity = ["ERROR"] ∧
    pyLower "ERROR" ≠ pyLower "info" := by
  constructor
  · have hft : filtered_templates "checkout-service" "info" = [] := by decide
    have h15 : parse_time_range "15m" = .ok 15 := rfl
    simp [generate_mock_logs, h15, Bind.bind, Except.bind, logs_of,
      mock_log_entries, logsRandomW, hft, choice_or_default, template0,
      log_templates, pyTake, List.mergeSort_singleton]
  · decide

/-- The one entry returned by the logs tool under `logsRandomW` for
service `all`, severity `critical`, `limit = 1`. -/
def logEntryCrit : LogEntry :=
  { timestamp := 0
    severity := "CRITICAL"
    service := "checkout-service"
    message := "Out of memory: heap usage 98%, triggering garbage collection"
    trace_id := "trace_1000" }

/-- The result of the logs tool under `logsRandomW` for service `all`,
severity `critical`, `limit = 1`. -/
def logsResultCrit : LogsResult :=
  { total_logs := 1
    time_range := "15m"
    service := "all"
    logs := [logEntryCrit] }

/-- Evaluating the logs tool under `logsRandomW` for severity `critical`. -/
theorem logsResultCrit_eq :
    generate_mock_logs logsRandomW 0 "all" "15m" "critical" 1 = .ok logsResultCrit := by
  have hft : filtered_templates "all" "critical"
      = [{ severity := "CRITICAL"
           message := "Out of memory: heap usage 98%, triggering garbage collection"
           service := "checkout-service" }] := by decide
  have h15 : parse_time_range "15m" = .ok 15 := rfl
  simp [generate_mock_logs, h15, Bind.bind, Except.bind, mock_log_entries,
    logsRandomW, hft, choice_or_default, pyTake, List.mergeSort_singleton,
    logsResultCrit, List.range_succ]
  rfl

/-- Witness for the amended C4: with service `all` and severity
`critical` the filter keeps the one `CRITICAL` template, and the one
returned entry matches the requested severity case-insensitively. -/
theorem generate_mock_logs_filter_match_witness :
    pyLower logEntryCrit.severity = pyLower "critical" := by
  have h := generate_mock_logs_filter_match logsRandomW 0 "all" "15m" "critical" 1
    logsResultCrit logsResultCrit_eq
  have hne : filtered_templates "all" "critical" ≠ [] := by decide
  have hmem : logEntryCrit ∈ logsResultCrit.logs := by simp [logsResultCrit]
  exact (h.1 hne logEntryCrit hmem).1 (by decide)

/-- Elements of a one-element conditional list are that element. -/
theorem eq_of_mem_if_singleton {c : Prop} [Decidable c] {x kv : α}
    (h : kv ∈ if c then [x] else ([] : List α)) : kv = x := by
  split at h
  · simpa using h
  · simp at h

/-- Every value produced by `_generate_timeseries` is nonnegative: the
clamp `max(0, value)` precedes the rounding. -/
theorem generate_timeseries_nonneg (rnd : SeriesRandom) (now : ℚ)
    (n : ℕ) (base variance prob mag : ℚ) :
    ∀ p ∈ generate_timeseries rnd now n base variance prob mag, 0 ≤ p.value := by
  intro p hp
  simp only [generate_timeseries, List.mem_map, List.mem_range] at hp
  obtain ⟨i, -, rfl⟩ := hp
  exact round2_nonneg (le_max_left _ _)

/-- A fixed choice of the random draws of the metrics tool, used to
evaluate claims on concrete inputs. -/
def metricsRandomW : MetricsRandom :=
  { cpu := ⟨fun _ => 0, fun _ => false⟩
    memory := ⟨fun _ => 0, fun _ => false⟩
    latency := ⟨fun _ => 0, fun _ => false⟩
    error_rate := ⟨fun _ => 0, fun _ => false⟩ }

/-- The result of the metrics tool under `metricsRandomW` for `all`
metrics on a 15-minute window. -/
def metricsResultW : MetricsResult :=
  { service := "all"
    time_range := "15m"
    metric_type := "all"
    data_points := 15
    metrics := mock_metrics_map metricsRandomW 0 15 "all" }

/-- Evaluating the metrics tool under `metricsRandomW`. -/
theorem metricsResultW_eq :
    generate_mock_metrics metricsRandomW 0 "all" "all" "15m" = .ok metricsResultW := rfl

/-- Claim C8: every value in every time series produced by the metrics
tool is at least 0, whatever the parameters and random draws. -/
theorem generate_mock_metrics_nonneg (rnd : MetricsRandom) (now : ℚ)
    (sn mt tr : String) (r : MetricsResult)
    (h : generate_mock_metrics rnd now sn mt tr = .ok r) :
    ∀ kv ∈ r.metrics, ∀ p ∈ kv.2, 0 ≤ p.value := by
  have hm : r.metrics = mock_metrics_map rnd now r.data_points mt := by
    cases hp : parse_time_range tr with
    | error e =>
        rw [generate_mock_metrics] at h
        rw [hp] at h
        simp [Bind.bind, Except.bind] at h
    | ok m =>
        rw [generate_mock_metrics] at h
        rw [hp] at h
        simp only [Bind.bind, Except.bind, Except.ok.injEq] at h
        rw [← h]
  intro kv hkv
  rw [hm] at hkv
  simp only [mock_metrics_map, List.mem_append] at hkv
  rcases hkv with ((hkv | hkv) | hkv) | hkv
  · rw [eq_of_mem_if_singleton hkv]
    exact fun p hp =>
      generate_timeseries_nonneg rnd.cpu now r.data_points 60 20 (1/10) 2 p hp
  · rw [eq_of_mem_if_singleton hkv]
    exact fun p hp =>
      generate_timeseries_nonneg rnd.memory now r.data_points 75 10 (1/20) 2 p hp
  · rw [eq_of_mem_if_singleton hkv]
    exact fun p hp =>
      generate_timeseries_nonneg rnd.latency now r.data_points 250 100 (3/20) 3 p hp
  · rw [eq_of_mem_if_singleton hkv]
    exact fun p hp =>
      generate_timeseries_nonneg rnd.error_rate now r.data_points (1/2) (3/10)
        (1/5) 10 p hp

/-- The first point of the cpu series generated under `metricsRandomW`
on a 15-minute window. -/
def metricPointW : MetricPoint :=
  { timestamp := 0 - ((15 - 0 : ℕ) : ℚ)
    value := round2 (max 0 (60 + (0 : ℚ) * 20)) }

/-- Witness for C8: the first cpu point under `metricsRandomW` is
nonnegative. -/
theorem generate_mock_metrics_nonneg_witness : 0 ≤ metricPointW.value := by
  have hkv : ("cpu_usage_percent",
      generate_timeseries metricsRandomW.cpu 0 15 60 20 (1/10) 2)
      ∈ metricsResultW.metrics := by
    simp [metricsResultW, mock_metrics_map]
  have hp : metricPointW
      ∈ generate_timeseries metricsRandomW.cpu 0 15 60 20 (1/10) 2 := by
    simp only [generate_timeseries, List.mem_map, List.mem_range]
    exact ⟨0, by norm_num, rfl⟩
  exact generate_mock_metrics_nonneg metricsRandomW 0 "all" "all" "15m"
    metricsResultW metricsResultW_eq _ hkv metricPointW hp

/-- Claim C6: for a valid `time_range` resolving to `m` minutes, the
metrics tool succeeds, its `data_points` equals `m`, and the keys of its
`metrics` mapping are exactly the ones `metric_type` implies: all four
for `all`, the single matching key for a recognized type, and none (with
no error) for an unrecognized type. -/
theorem generate_mock_metrics_shape (rnd : MetricsRandom) (now : ℚ)
    (sn mt tr : String) (m : ℕ)
    (h : parse_time_range tr = .ok m) :
    generate_mock_metrics rnd now sn mt tr
      = .ok { service := sn
              time_range := tr
              metric_type := mt
              data_points := m
              metrics := mock_metrics_map rnd now m mt } ∧
    (mock_metrics_map rnd now m mt).map Prod.fst = spec_metric_keys mt := by
  refine ⟨by rw [generate_mock_metrics]; rw [h]; rfl, ?_⟩
  by_cases h1 : mt = "all"
  · subst h1; rfl
  by_cases h2 : mt = "cpu"
  · subst h2; rfl
  by_cases h3 : mt = "memory"
  · subst h3; rfl
  by_cases h4 : mt = "latency"
  · subst h4; rfl
  by_cases h5 : mt = "error_rate"
  · subst h5; rfl
  simp [mock_metrics_map, spec_metric_keys, h1, h2, h3, h4, h5]

/-- Witness for C6 at `time_range = "15m"`, `metric_type = "all"`. -/
theorem generate_mock_metrics_shape_witness :
    generate_mock_metrics metricsRandomW 0 "all" "all" "15m"
      = .ok { service := "all"
              time_range := "15m"
              metric_type := "all"
              data_points := 15
              metrics := mock_metrics_map metricsRandomW 0 15 "all" } ∧
    (mock_metrics_map metricsRandomW 0 15 "all").map Prod.fst
      = spec_metric_keys "all" := by
  exact generate_mock_metrics_shape metricsRandomW 0 "all" "all" "15m" 15 rfl

/-- Claim C2: for every tool body outcome, `run` (a total function — it
never raises) returns the success envelope with the body's return value
as `data` when the body returns, the failure envelope with the
exception's string as `error` when the body raises, a nonnegative
`execution_time_ms` (given that the second clock reading is not before
the first), the supplied timestamp, and exactly one of `data`/`error`
present, gated by `success`. -/
theorem base_tool_run_contract (outcome : Except String PyDict) (t0 t1 : ℚ)
    (ts : String) (h : t0 ≤ t1) :
    0 ≤ (BaseTool.run outcome t0 t1 ts).execution_time_ms ∧
    (BaseTool.run outcome t0 t1 ts).timestamp = ts ∧
    (∀ v, outcome = .ok v →
      BaseTool.run outcome t0 t1 ts
        = { success := true, data := some v, error := none
            execution_time_ms := BaseTool.elapsed_ms t0 t1, timestamp := ts }) ∧
    (∀ e, outcome = .error e →
      BaseTool.run outcome t0 t1 ts
        = { success := false, data := none, error := some e
            execution_time_ms := BaseTool.elapsed_ms t0 t1, timestamp := ts }) ∧
    ((BaseTool.run outcome t0 t1 ts).data.isSome
      ↔ (BaseTool.run outcome t0 t1 ts).success = true) ∧
    ((BaseTool.run outcome t0 t1 ts).error.isSome
      ↔ (BaseTool.run outcome t0 t1 ts).success = false) := by
  have htime : 0 ≤ BaseTool.elapsed_ms t0 t1 := by
    have hq : (0 : ℚ) ≤ (t1 - t0) * 1000 := by
      have := sub_nonneg.mpr h
      positivity
    rw [BaseTool.elapsed_ms, pyInt, if_pos hq]
    exact Int.le_floor.mpr (by exact_mod_cast hq)
  cases outcome with
  | ok v =>
      refine ⟨htime, rfl, fun w hw => ?_, fun e he => by simp at he, by simp [BaseTool.run], by simp [BaseTool.run]⟩
      obtain rfl : v = w := by simpa using hw
      rfl
  | error e =>
      refine ⟨htime, rfl, fun w hw => by simp at hw, fun f hf => ?_, by simp [BaseTool.run], by simp [BaseTool.run]⟩
      obtain rfl : e = f := by simpa using hf
      rfl

/-- Witness for C2 on a raising body (`RuntimeError("Mock error")`) with
clock readings 0 and 1 seconds. -/
theorem base_tool_run_contract_witness :
    0 ≤ (BaseTool.run (.error "Mock error") 0 1 "ts").execution_time_ms ∧
    (BaseTool.run (.error "Mock error") 0 1 "ts").timestamp = "ts" ∧
    BaseTool.run (.error "Mock error") 0 1 "ts"
      = { success := false, data := none, error := some "Mock error"
          execution_time_ms := BaseTool.elapsed_ms 0 1, timestamp := "ts" } ∧
    ((BaseTool.run (.error "Mock error") 0 1 "ts").data.isSome
      ↔ (BaseTool.run (.error "Mock error") 0 1 "ts").success = true) ∧
    ((BaseTool.run (.error "Mock error") 0 1 "ts").error.isSome
      ↔ (BaseTool.run (.error "Mock error") 0 1 "ts").success = false) := by
  have h := base_tool_run_contract (.error "Mock error") 0 1 "ts" (by norm_num)
  exact ⟨h.1, h.2.1, h.2.2.2.1 "Mock error" rfl, h.2.2.2.2.1, h.2.2.2.2.2⟩

/-- The loop's consultation count grows by at most the remaining fuel. -/
theorem run_iterations_count (env : AgentEnv) :
    ∀ (fuel : ℕ) (msgs : List Message) (ex : List ToolExecutionRecord) (c : ℕ)
      (fr : Option String) (tex : List ToolExecutionRecord) (n : ℕ),
      run_iterations env fuel msgs ex c = .ok (fr, tex, n) → n ≤ c + fuel := by
  intro fuel
  induction fuel with
  | zero =>
      intro msgs ex c fr tex n h
      simp only [run_iterations, Except.ok.injEq, Prod.mk.injEq] at h
      omega
  | succ fuel ih =>
      intro msgs ex c fr tex n h
      simp only [run_iterations] at h
      by_cases he : (env.oracle msgs).tool_calls.isEmpty
      · rw [if_pos he] at h
        simp only [Except.ok.injEq, Prod.mk.injEq] at h
        omega
      · rw [if_neg he] at h
        cases hp : process_tool_calls env (env.oracle msgs).tool_calls
            (msgs ++ [.assistant (env.oracle msgs).content (env.oracle msgs).tool_calls])
            ex with
        | error e =>
            rw [hp] at h
            simp [Bind.bind, Except.bind] at h
        | ok me =>
            obtain ⟨m2, e2⟩ := me
            rw [hp] at h
            simp only [Bind.bind, Except.bind] at h
            have := ih m2 e2 (c + 1) fr tex n h
            omega

/-- Claim C1: `diagnose` always terminates (it is a total function of its
inputs) and performs at most 5 model consultations: the instrumented
consultation count of any successful run never exceeds 5, so the loop
never enters a 6th collecting iteration. -/
theorem diagnose_consultations_le (env : AgentEnv) (rid : String) (pt : ℤ)
    (ts q : String) (sn : Option String) (tr : String)
    (r : DiagnosisResult) (n : ℕ)
    (h : diagnose env rid pt ts q sn tr = .ok (r, n)) : n ≤ 5 := by
  rw [diagnose] at h
  cases hr : run_iterations env max_iterations (init_messages q sn tr) [] 0 with
  | error e =>
      rw [hr] at h
      simp [Bind.bind, Except.bind] at h
  | ok trip =>
      obtain ⟨fr, tex, k⟩ := trip
      rw [hr] at h
      simp only [Bind.bind, Except.bind, Except.ok.injEq, Prod.mk.injEq] at h
      have hk := run_iterations_count env max_iterations (init_messages q sn tr)
        [] 0 fr tex k hr
      rw [show max_iterations = 5 from rfl] at hk
      omega

/-- An environment whose model answers immediately with free text. -/
def agentEnvAnswer : AgentEnv :=
  { oracle := fun _ => ⟨"All good.", []⟩
    runTool := fun _ _ => ⟨true, some [], none, 0, "t"⟩ }

/-- The diagnosis produced by `agentEnvAnswer`. -/
def diagnosisResultAnswer : DiagnosisResult :=
  { request_id := "req"
    status := "success"
    query := "q"
    analysis := "All good."
    tools_executed := []
    processing_time_ms := 0
    timestamp := "t" }

/-- Witness for C1: an immediately answering model consults once. -/
theorem diagnose_consultations_le_witness :
    diagnose agentEnvAnswer "req" 0 "t" "q" none "15m"
      = .ok (diagnosisResultAnswer, 1) ∧ 1 ≤ 5 :=
  ⟨rfl, diagnose_consultations_le agentEnvAnswer "req" 0 "t" "q" none "15m"
    diagnosisResultAnswer 1 rfl⟩

/-- When every requested tool is registered, the inner dispatch loop
appends one tool-result message and one trace record per call, in call
order, and fails nowhere. -/
theorem process_tool_calls_registered (env : AgentEnv) :
    ∀ (calls : List ToolCall) (msgs : List Message)
      (ex : List ToolExecutionRecord),
      (∀ tc ∈ calls, registered tc.name = true) →
      process_tool_calls env calls msgs ex
        = .ok (msgs ++ calls.map fun tc =>
                 .tool tc.id tc.name ((env.runTool tc.name tc.arguments).data.getD []),
               ex ++ calls.map fun tc =>
                 mk_execution_record tc.name (env.runTool tc.name tc.arguments)) := by
  intro calls
  induction calls with
  | nil =>
      intro msgs ex h
      simp [process_tool_calls]
  | cons tc rest ih =>
      intro msgs ex h
      have htc : registered tc.name = true := h tc (by simp)
      rw [process_tool_calls]
      rw [show execute_tool env tc.name tc.arguments
            = .ok (env.runTool tc.name tc.arguments) from by
          rw [execute_tool, if_pos htc]]
      simp only [Bind.bind, Except.bind]
      rw [ih _ _ fun c hc => h c (by simp [hc])]
      simp [List.append_assoc]

/-- If the model keeps requesting registered tools on every consultation,
the loop runs out of fuel with no final response, having appended exactly
the per-iteration records in order. -/
theorem run_iterations_exhausted (env : AgentEnv)
    (h1 : ∀ msgs, (env.oracle msgs).tool_calls ≠ [])
    (h2 : ∀ msgs, ∀ tc ∈ (env.oracle msgs).tool_calls, registered tc.name = true) :
    ∀ (fuel : ℕ) (msgs : List Message) (ex : List ToolExecutionRecord) (c : ℕ),
      run_iterations env fuel msgs ex c
        = .ok (none, ex ++ expected_trace env fuel msgs, c + fuel) := by
  intro fuel
  induction fuel with
  | zero =>
      intro msgs ex c
      simp [run_iterations, expected_trace]
  | succ fuel ih =>
      intro msgs ex c
      have hne : (env.oracle msgs).tool_calls.isEmpty = false :=
        List.isEmpty_eq_false.mpr (h1 msgs)
      rw [run_iterations]
      rw [if_neg (by simp [hne])]
      dsimp only
      rw [process_tool_calls_registered env _ _ _ (h2 msgs)]
      simp only [Bind.bind, Except.bind]
      rw [ih]
      rw [show expected_trace env (fuel + 1) msgs
            = iteration_records env msgs
                ++ expected_trace env fuel (step_messages env msgs) from rfl]
      rw [show (msgs ++ [.assistant (env.oracle msgs).content (env.oracle msgs).tool_calls])
              ++ (env.oracle msgs).tool_calls.map (fun tc =>
                   Message.tool tc.id tc.name ((env.runTool tc.name tc.arguments).data.getD []))
            = step_messages env msgs from by
          simp [step_messages, List.append_assoc]]
      rw [show ex ++ (env.oracle msgs).tool_calls.map (fun tc =>
              mk_execution_record tc.name (env.runTool tc.name tc.arguments))
            = ex ++ iteration_records env msgs from rfl]
      rw [List.append_assoc]
      rw [show c + 1 + fuel = c + (fuel + 1) from by omega]

/-- Claim C5: if the model requests registered tools on every
consultation, `diagnose` reports — rather than fails — after exactly 5
consultations: the analysis is the fixed exhaustion sentinel and the
trace contains the records of every tool call of all 5 iterations, in
call order. -/
theorem diagnose_exhausted (env : AgentEnv) (rid : String) (pt : ℤ)
    (ts q : String) (sn : Option String) (tr : String)
    (h1 : ∀ msgs, (env.oracle msgs).tool_calls ≠ [])
    (h2 : ∀ msgs, ∀ tc ∈ (env.oracle msgs).tool_calls, registered tc.name = true) :
    diagnose env rid pt ts q sn tr
      = .ok ({ request_id := rid
               status := "success"
               query := q
               analysis := exhaustion_sentinel
               tools_executed := expected_trace env 5 (init_messages q sn tr)
               processing_time_ms := pt
               timestamp := ts }, 5) := by
  rw [diagnose]
  rw [run_iterations_exhausted env h1 h2 max_iterations (init_messages q sn tr) [] 0]
  rfl

/-- The tool call every consultation of `agentEnvToolLoop` requests. -/
def toolCallLogs : ToolCall := { id := "call_1", name := "query_logs", arguments := [] }

/-- An environment whose model requests `query_logs` on every turn. -/
def agentEnvToolLoop : AgentEnv :=
  { oracle := fun _ => ⟨"", [toolCallLogs]⟩
    runTool := fun _ _ => ⟨true, some [], none, 0, "t"⟩ }

/-- Witness for C5: the always-tool-requesting model exhausts the cap. -/
theorem diagnose_exhausted_witness :
    diagnose agentEnvToolLoop "req" 0 "t" "q" none "15m"
      = .ok ({ request_id := "req"
               status := "success"
               query := "q"
               analysis := exhaustion_sentinel
               tools_executed :=
                 expected_trace agentEnvToolLoop 5 (init_messages "q" none "15m")
               processing_time_ms := 0
               timestamp := "t" }, 5) := by
  exact diagnose_exhausted agentEnvToolLoop "req" 0 "t" "q" none "15m"
    (fun msgs => by simp [agentEnvToolLoop])
    (fun msgs tc htc => by
      simp only [agentEnvToolLoop, List.mem_singleton] at htc
      rw [htc]
      rfl)

/-- Dispatching a call list whose first unregistered name follows only
registered ones raises `ValueError("Unknown tool: ...")` out of the
dispatch loop. -/
theorem process_tool_calls_unknown (env : AgentEnv) :
    ∀ (pre : List ToolCall) (tc : ToolCall) (rest : List ToolCall)
      (msgs : List Message) (ex : List ToolExecutionRecord),
      (∀ c ∈ pre, registered c.name = true) → registered tc.name = false →
      process_tool_calls env (pre ++ tc :: rest) msgs ex
        = .error ("Unknown tool: " ++ tc.name) := by
  intro pre
  induction pre with
  | nil =>
      intro tc rest msgs ex hpre htc
      rw [List.nil_append, process_tool_calls]
      rw [show execute_tool env tc.name tc.arguments
            = .error ("Unknown tool: " ++ tc.name) from by
          rw [execute_tool, if_neg (by simp [htc])]]
      rfl
  | cons c pre ih =>
      intro tc rest msgs ex hpre htc
      rw [List.cons_append, process_tool_calls]
      rw [show execute_tool env c.name c.arguments
            = .ok (env.runTool c.name c.arguments) from by
          rw [execute_tool, if_pos (hpre c (by simp))]]
      simp only [Bind.bind, Except.bind]
      exact ih tc rest _ _ (fun d hd => hpre d (by simp [hd])) htc

/-- Claim C9: when the model's response names a tool outside the registry
(after any registered ones earlier in the same response), the whole
`diagnose` call fails with `Unknown tool: <name>` — the failure is not
absorbed into a failed tool execution result in the trace. -/
theorem diagnose_unknown_tool (env : AgentEnv) (rid : String) (pt : ℤ)
    (ts q : String) (sn : Option String) (tr : String)
    (pre : List ToolCall) (tc : ToolCall) (rest : List ToolCall)
    (h : (env.oracle (init_messages q sn tr)).tool_calls = pre ++ tc :: rest)
    (hpre : ∀ c ∈ pre, registered c.name = true)
    (htc : registered tc.name = false) :
    diagnose env rid pt ts q sn tr = .error ("Unknown tool: " ++ tc.name) := by
  rw [diagnose]
  rw [show max_iterations = 4 + 1 from rfl]
  rw [run_iterations]
  rw [if_neg (by simp [h])]
  rw [h]
  dsimp only
  rw [process_tool_calls_unknown env pre tc rest _ _ hpre htc]
  rfl

/-- The unregistered tool call requested by `agentEnvUnknown`. -/
def toolCallUnknown : ToolCall := { id := "call_1", name := "query_trace", arguments := [] }

/-- An environment whose model requests the unregistered `query_trace`. -/
def agentEnvUnknown : AgentEnv :=
  { oracle := fun _ => ⟨"", [toolCallUnknown]⟩
    runTool := fun _ _ => ⟨true, some [], none, 0, "t"⟩ }

/-- Witness for C9: requesting `query_trace` fails the whole call. -/
theorem diagnose_unknown_tool_witness :
    diagnose agentEnvUnknown "req" 0 "t" "q" none "15m"
      = .error ("Unknown tool: " ++ toolCallUnknown.name) :=
  diagnose_unknown_tool agentEnvUnknown "req" 0 "t" "q" none "15m"
    [] toolCallUnknown [] rfl (by simp) rfl

end IncidentIntelligence









